import Mathlib

/-!
Verification of the normalization engine in `src/code-samples/json_cleaner.js`
(JSON Cleaner & Normalizer for credit-bureau payloads).

The JavaScript source is shallowly embedded: JSON values (plus JavaScript's
`undefined`) become the inductive type `JVal`; JavaScript numbers are
idealized as exact scaled decimals (`Decimal`, value `n / 10 ^ s`) together
with the special values `NaN` and `±Infinity` (`JsNum`); objects are
association lists with first-match lookup.  Every value that actually flows
through this program is a finite decimal, so the idealization is exact on
all reachable arithmetic (only `+` is ever applied to numbers).

Plain (non-optional) property accesses, which in JavaScript throw a
`TypeError` when the receiver is `null`/`undefined`, are modelled in an
`Except Unit` monad (`pget`); optional-chained accesses (`a?.b`) are the
total function `oget`.  `cleanCreditDataE` is the faithful, possibly-throwing
embedding; `cleanCreditData` is its pure counterpart, and the theorem that
they agree on every input is the "never throws" contract.
-/

set_option autoImplicit false

namespace CreditClean

/-- Exact scaled decimal: the number `n / 10 ^ s`.  Canonical form (produced
by `stripTens`) has `s = 0` or `10 ∤ n`, which makes equality of parsed /
summed values syntactic. -/
structure Decimal where
  n : Int
  s : Nat
deriving DecidableEq

/-- Remove trailing factors of ten: `stripTens n s` is the canonical
representation of `n / 10 ^ s`. -/
def stripTens : Int → Nat → Decimal
  | n, 0 => ⟨n, 0⟩
  | n, t + 1 => if n % 10 = 0 then stripTens (n / 10) t else ⟨n, t + 1⟩

/-- A JavaScript number: `NaN`, `±Infinity`, or a finite (decimal) value. -/
inductive JsNum where
  | nan
  | inf
  | ninf
  | val (d : Decimal)
deriving DecidableEq

/-- Addition on `Decimal` (exact; result canonical). -/
def Decimal.add (a b : Decimal) : Decimal :=
  if a.s ≤ b.s then stripTens (a.n * (10 : Int) ^ (b.s - a.s) + b.n) b.s
  else stripTens (a.n + b.n * (10 : Int) ^ (a.s - b.s)) a.s

/-- JavaScript `+` on numbers (`NaN` absorbs; `Infinity + -Infinity = NaN`). -/
def JsNum.add : JsNum → JsNum → JsNum
  | JsNum.nan, _ => JsNum.nan
  | _, JsNum.nan => JsNum.nan
  | JsNum.inf, JsNum.ninf => JsNum.nan
  | JsNum.ninf, JsNum.inf => JsNum.nan
  | JsNum.inf, _ => JsNum.inf
  | _, JsNum.inf => JsNum.inf
  | JsNum.ninf, _ => JsNum.ninf
  | _, JsNum.ninf => JsNum.ninf
  | JsNum.val a, JsNum.val b => JsNum.val (a.add b)

/-- Truthiness of a JavaScript number: `NaN` and `0` are falsy. -/
def JsNum.truthy : JsNum → Bool
  | JsNum.nan => false
  | JsNum.inf => true
  | JsNum.ninf => true
  | JsNum.val d => !(d.n == 0)

/-- A JavaScript value as seen by the cleaner: the JSON universe plus
`undefined`.  Objects are association lists (first binding wins, as all
objects built by the program have distinct keys). -/
inductive JVal where
  | undef
  | null
  | bool (b : Bool)
  | num (v : JsNum)
  | str (s : String)
  | arr (elems : List JVal)
  | obj (fields : List (String × JVal))

/-- JavaScript truthiness. -/
def truthy : JVal → Bool
  | JVal.undef => false
  | JVal.null => false
  | JVal.bool b => b
  | JVal.num v => v.truthy
  | JVal.str s => !(s == "")
  | JVal.arr _ => true
  | JVal.obj _ => true

/-- First-match lookup in an object's field list; missing keys give
`undefined`. -/
def objLookup : List (String × JVal) → String → JVal
  | [], _ => JVal.undef
  | (k, v) :: rest, key => if k == key then v else objLookup rest key

/-- Property access on a value already known not to be `null`/`undefined`
(never throws in JavaScript): objects look up the key, every other receiver
yields `undefined`. -/
def propGet : JVal → String → JVal
  | JVal.obj fields, key => objLookup fields key
  | _, _ => JVal.undef

/-- Optional-chained access `a?.k`: `null`/`undefined` receivers
short-circuit to `undefined`. -/
def oget (v : JVal) (k : String) : JVal :=
  match v with
  | JVal.undef => JVal.undef
  | JVal.null => JVal.undef
  | w => propGet w k

/-- Plain access `a[k]`: throws (`.error`) on a `null`/`undefined`
receiver, exactly like JavaScript. -/
def pget : JVal → String → Except Unit JVal
  | JVal.undef, _ => Except.error ()
  | JVal.null, _ => Except.error ()
  | v, k => Except.ok (propGet v k)

/-- JavaScript `a || b`. -/
def jsOr (a b : JVal) : JVal := if truthy a then a else b

/-- JavaScript `a || b` on numbers (used for `parseInt(x) || 0`). -/
def numOr (a b : JsNum) : JsNum := if a.truthy then a else b

/-- The test `typeof v === "object"` (true for objects, arrays and `null`). -/
def isObjType : JVal → Bool
  | JVal.obj _ => true
  | JVal.arr _ => true
  | JVal.null => true
  | _ => false

/-- Strict equality `v === s` against a string literal. -/
def strictEqStr : JVal → String → Bool
  | JVal.str t, s => t == s
  | _, _ => false

-- ### Number formatting and parsing (JavaScript built-ins)

/-- Whitespace skipped by `parseInt`/`parseFloat` and removed by
`String.prototype.trim` (the common ASCII subset; exotic Unicode spaces are
outside the model). -/
def isJsWs (c : Char) : Bool :=
  c == ' ' || c == '\t' || c == '\n' || c == '\r' ||
  c == Char.ofNat 11 || c == Char.ofNat 12

/-- Value of a list of decimal digits. -/
def digitsToNat (cs : List Char) : Nat :=
  cs.foldl (fun a c => a * 10 + (c.toNat - 48)) 0

def isHexDigit (c : Char) : Bool :=
  c.isDigit || ('a' ≤ c && c ≤ 'f') || ('A' ≤ c && c ≤ 'F')

def hexDigitToNat (c : Char) : Nat :=
  if c.isDigit then c.toNat - 48
  else if 'a' ≤ c && c ≤ 'f' then c.toNat - 87
  else c.toNat - 55

/-- Value of a list of hexadecimal digits. -/
def hexToNat (cs : List Char) : Nat :=
  cs.foldl (fun a c => a * 16 + hexDigitToNat c) 0

/-- Consume an optional leading sign; returns (isNegative, rest). -/
def splitSign : List Char → Bool × List Char
  | '+' :: r => (false, r)
  | '-' :: r => (true, r)
  | r => (false, r)

def intSign (neg : Bool) (m : Nat) : Int :=
  if neg then -(Int.ofNat m) else Int.ofNat m

/-- The decimal `ip.fp` built from integer-part and fraction-part digits. -/
def decimalOfDigits (ip fp : List Char) : Decimal :=
  stripTens (Int.ofNat (digitsToNat (ip ++ fp))) fp.length

/-- Longest mantissa prefix accepted by `parseFloat`
(`digits [. digits]` or `. digits`); `none` when no digit is found. -/
def mantissaOf (cs : List Char) : Option (Decimal × List Char) :=
  let ip := cs.takeWhile Char.isDigit
  let r1 := cs.dropWhile Char.isDigit
  match r1 with
  | '.' :: r2 =>
      let fp := r2.takeWhile Char.isDigit
      let r3 := r2.dropWhile Char.isDigit
      if ip.isEmpty && fp.isEmpty then none
      else some (decimalOfDigits ip fp, r3)
  | _ => if ip.isEmpty then none else some (decimalOfDigits ip [], r1)

/-- Exponent suffix accepted by `parseFloat` (`e`/`E`, optional sign,
digits); an incomplete exponent contributes `0` (it is not consumed). -/
def expPart (cs : List Char) : Int :=
  match cs with
  | [] => 0
  | c :: rest =>
      if c == 'e' || c == 'E' then
        match splitSign rest with
        | (neg, r) =>
            let ds := r.takeWhile Char.isDigit
            if ds.isEmpty then 0 else intSign neg (digitsToNat ds)
      else 0

/-- Scale a decimal by `10 ^ e`. -/
def Decimal.scale10 (d : Decimal) (e : Int) : Decimal :=
  match e with
  | Int.ofNat k => stripTens (d.n * (10 : Int) ^ k) d.s
  | Int.negSucc k => stripTens d.n (d.s + (k + 1))

/-- JavaScript `parseFloat` on a string: skip whitespace, optional sign,
`Infinity` literal or decimal mantissa with optional exponent; `NaN` when no
number prefix exists. -/
def jsParseFloatStr (str : String) : JsNum :=
  let cs := str.data.dropWhile isJsWs
  match splitSign cs with
  | (neg, cs2) =>
      if cs2.take 8 = "Infinity".data then
        if neg then JsNum.ninf else JsNum.inf
      else
        match mantissaOf cs2 with
        | none => JsNum.nan
        | some (d, rest) =>
            let d2 := d.scale10 (expPart rest)
            JsNum.val (if neg then ⟨-d2.n, d2.s⟩ else d2)

/-- Decimal-digit prefix for `parseInt`; `NaN` when it is empty. -/
def decIntOf (neg : Bool) (cs : List Char) : JsNum :=
  let ds := cs.takeWhile Char.isDigit
  if ds.isEmpty then JsNum.nan else JsNum.val ⟨intSign neg (digitsToNat ds), 0⟩

/-- JavaScript `parseInt` (radix argument omitted) on a string: skip
whitespace, optional sign, `0x`/`0X` hexadecimal prefix or longest decimal
digit prefix; `NaN` when no digit is found. -/
def jsParseIntStr (str : String) : JsNum :=
  let cs := str.data.dropWhile isJsWs
  match splitSign cs with
  | (neg, cs2) =>
      match cs2 with
      | '0' :: c :: r =>
          if c == 'x' || c == 'X' then
            let ds := r.takeWhile isHexDigit
            if ds.isEmpty then JsNum.nan
            else JsNum.val ⟨intSign neg (hexToNat ds), 0⟩
          else decIntOf neg cs2
      | _ => decIntOf neg cs2

/-- Render a number the way JavaScript's string coercion does for plain
decimal values (`NaN`, `±Infinity`, or the canonical decimal expansion). -/
def decRender (d0 : Decimal) : String :=
  let d := stripTens d0.n d0.s
  let sgn := if d.n < 0 then "-" else ""
  let digs := toString d.n.natAbs
  if d.s = 0 then sgn ++ digs
  else
    let padded :=
      if digs.length ≤ d.s then
        String.mk (List.replicate (d.s + 1 - digs.length) '0') ++ digs
      else digs
    sgn ++ padded.take (padded.length - d.s) ++ "." ++
      padded.drop (padded.length - d.s)

def numToString : JsNum → String
  | JsNum.nan => "NaN"
  | JsNum.inf => "Infinity"
  | JsNum.ninf => "-Infinity"
  | JsNum.val d => decRender d

mutual
/-- JavaScript `String(v)` coercion.  Arrays join their elements with `,`,
rendering `null`/`undefined` elements as the empty string; objects render as
the fixed tag string. -/
def jsToString : JVal → String
  | JVal.undef => "undefined"
  | JVal.null => "null"
  | JVal.bool b => cond b "true" "false"
  | JVal.num v => numToString v
  | JVal.str s => s
  | JVal.arr xs => String.intercalate "," (jsToStringList xs)
  | JVal.obj _ => "[object Object]"

def jsToStringList : List JVal → List String
  | [] => []
  | JVal.undef :: rest => "" :: jsToStringList rest
  | JVal.null :: rest => "" :: jsToStringList rest
  | x :: rest => jsToString x :: jsToStringList rest
end

/-- JavaScript `parseInt(v)`: coerce the argument to a string first. -/
def jsParseInt (v : JVal) : JsNum := jsParseIntStr (jsToString v)

/-- JavaScript `String.prototype.trim`: drop whitespace from both ends. -/
def trimChars (l : List Char) : List Char :=
  ((l.dropWhile isJsWs).reverse.dropWhile isJsWs).reverse

def jsTrim (s : String) : String := String.mk (trimChars s.data)

-- ### The source's helper functions (json_cleaner.js lines 19-80)

/-- Replace the first `,` by `.` (JavaScript `.replace(",", ".")` with a
string pattern replaces only the first occurrence). -/
def replaceFirstComma : List Char → List Char
  | [] => []
  | ',' :: r => '.' :: r
  | c :: r => c :: replaceFirstComma r

/-- Source `parseMonetaryValue` (lines 19-23): non-strings yield `0`; strings have
every `.` removed and the first `,` turned into `.`, then go through
`parseFloat`. -/
def parseMonetaryValue : JVal → JsNum
  | JVal.str s =>
      jsParseFloatStr
        (String.mk (replaceFirstComma (s.data.filter (fun c => !(c == '.')))))
  | _ => JsNum.val ⟨0, 0⟩

/-- Assignment `newItem[k] = v` on an association list: overwrite the first
binding of `k`, or append. -/
def objSet : List (String × JVal) → String → JVal → List (String × JVal)
  | [], k, v => [(k, v)]
  | (k1, v1) :: rest, k, v =>
      if k1 == k then (k1, v) :: rest else (k1, v1) :: objSet rest k v

/-- The `for (const oldKey in keyMap)` loop (lines 71-76): copy each mapped
field whose source value is truthy and not the placeholder `"-"`. -/
def buildRecord (keyMap : List (String × String)) (item : JVal)
    (acc : List (String × JVal)) : List (String × JVal) :=
  match keyMap with
  | [] => acc
  | (oldKey, newKey) :: rest =>
      let v := propGet item oldKey
      if truthy v && !(strictEqStr v "-") then
        buildRecord rest item (objSet acc newKey v)
      else buildRecord rest item acc

/-- The `.map` body (lines 67-78): non-objects (including `null`) become
`null`; objects and arrays are rebuilt through the rename map. -/
def mapItem (keyMap : List (String × String)) (item : JVal) : JVal :=
  match item with
  | JVal.obj _ => JVal.obj (buildRecord keyMap item [])
  | JVal.arr _ => JVal.obj (buildRecord keyMap item [])
  | _ => JVal.null

/-- The `.filter` predicate (line 79): keep non-null records with at least
one key. -/
def keepItem : JVal → Bool
  | JVal.obj fields => decide (0 < fields.length)
  | _ => false

/-- Lines 63-79: force `rawData` into an array, map and filter. -/
def finishBlock (rawData : JVal) (keyMap : List (String × String)) :
    List JVal :=
  let dataArray := match rawData with
    | JVal.arr xs => xs
    | v => [v]
  (dataArray.map (mapItem keyMap)).filter keepItem

/-- Source `processDetailBlock` (lines 37-80), pure form.  Shape precedence:
falsy block → `[]`; array → taken verbatim; object with `REGISTRO === "S"`
and a truthy value at `dataKey` → unwrap that value; other object with
`REGISTRO === "S"` → single record; anything else → `[]`.  (`dataKey` is
`none` when the source passes `null`.) -/
def processDetailBlock (detailBlock : JVal) (dataKey : Option String)
    (keyMap : List (String × String)) : List JVal :=
  if truthy detailBlock = false then []
  else
    match detailBlock, dataKey with
    | JVal.arr xs, _ => finishBlock (JVal.arr xs) keyMap
    | b, some k =>
        if strictEqStr (propGet b "REGISTRO") "S" && truthy (propGet b k) then
          finishBlock (propGet b k) keyMap
        else if isObjType b && strictEqStr (propGet b "REGISTRO") "S" then
          finishBlock b keyMap
        else []
    | b, none =>
        if isObjType b && strictEqStr (propGet b "REGISTRO") "S" then
          finishBlock b keyMap
        else []

/-- Variant of `processDetailBlock` with the plain accesses `detailBlock.REGISTRO` and
`detailBlock[dataKey]` given throwing (`pget`) semantics.  They sit behind
the truthiness guard, so the theorems show this never actually throws. -/
def processDetailBlockE (detailBlock : JVal) (dataKey : Option String)
    (keyMap : List (String × String)) : Except Unit (List JVal) :=
  if truthy detailBlock = false then Except.ok []
  else
    match detailBlock, dataKey with
    | JVal.arr xs, _ => Except.ok (finishBlock (JVal.arr xs) keyMap)
    | b, some k => do
        let registro ← pget b "REGISTRO"
        if strictEqStr registro "S" then do
          let dv ← pget b k
          if truthy dv then pure (finishBlock dv keyMap)
          else if isObjType b && strictEqStr registro "S" then
            pure (finishBlock b keyMap)
          else pure []
        else pure []
    | b, none => do
        let registro ← pget b "REGISTRO"
        if isObjType b && strictEqStr registro "S" then
          pure (finishBlock b keyMap)
        else pure []

-- ### Main transformation (json_cleaner.js lines 89-208)

/-- Rename map for `SCORE-CLASSIFICACAO-VARIOS-MODELOS` (lines 147-153). -/
def scoreKeyMap : List (String × String) :=
  [("NOMESCORE", "scoreName"), ("SCORE", "points"),
   ("CLASSIFICACAOALFABETICA", "ratingClass"), ("TEXTO", "description"),
   ("DESCRICAONATUREZA", "type")]

/-- Rename map for `DEBITOS` (lines 157-162). -/
def debtsKeyMap : List (String × String) :=
  [("DATAOCORRENCIA", "date"), ("VALOR", "value"),
   ("INFORMANTE", "creditor"), ("CONTRATO", "contractId")]

/-- Rename map for `TITULOS-PROTESTADOS` (lines 166-171). -/
def protestsKeyMap : List (String × String) :=
  [("DATAOCORRENCIA", "date"), ("VALOR", "value"), ("CIDADE", "city"),
   ("CARTORIO", "registryOffice")]

/-- Rename map for `RELACAO-DE-ACOES-CIVEIS` (lines 176-181). -/
def civilActionsKeyMap : List (String × String) :=
  [("DATADISTRIBUICAO", "distributionDate"), ("VALOR", "value"),
   ("ACAOCIVEL", "actionType"), ("AUTOR", "plaintiff")]

/-- Rename map for `RELACAO-FALENCIA-RECUPERACAO-JUDICIAL` (lines 186-190). -/
def bankruptcyKeyMap : List (String × String) :=
  [("RAZAOSOCIAL", "companyName"), ("TIPOOCORRENCIA", "type"),
   ("DATAOCORRENCIA", "date")]

/-- Rename map for `PARTICIPACOES-DO-DOCUMENTO-CONSULTADO` (lines 197-203). -/
def participationKeyMap : List (String × String) :=
  [("RAZAOSOCIAL", "companyName"), ("NUMERODOCUMENTOB", "cnpj"),
   ("FUNCAO", "role"), ("DATADEENTRADA", "entryDate"),
   ("VALOREMPERCENTUAL", "ownershipPercentage")]

/-- The template literal of lines 117-119:
`` `${loc?.TIPOLOGRADOURO || ""} ${loc?.NOMELOGRADOURO || ""}, ${loc?.NUMEROLOGRADOURO || ""}`.trim() ``. -/
def addressOf (locNode : JVal) : String :=
  jsTrim (jsToString (jsOr (oget locNode "TIPOLOGRADOURO") (JVal.str "")) ++
    " " ++ jsToString (jsOr (oget locNode "NOMELOGRADOURO") (JVal.str "")) ++
    ", " ++ jsToString (jsOr (oget locNode "NUMEROLOGRADOURO") (JVal.str "")))

/-- Lines 94-205 once the thirteen `creditReport.X` nodes have been read and
the six detail blocks processed: all remaining accesses are optional-chained
(`oget`) or operate on fresh values, so this part is throw-free in the
source and is shared by the pure and the `Except`-level embeddings. -/
def assemblePayload (debitSummary identNode statusNode locNode protSummary
    civSummary ccfSummary : JVal)
    (riskScore debts protests civilActions bankruptcy corpPart :
      List JVal) : JVal :=
  let qtyPrincipal :=
    numOr (jsParseInt (oget debitSummary "TOTALDEVEDOR")) (JsNum.val ⟨0, 0⟩)
  let qtyGuarantor :=
    numOr (jsParseInt (oget debitSummary "TOTALAVALISTA")) (JsNum.val ⟨0, 0⟩)
  let valPrincipal := parseMonetaryValue (oget debitSummary "VALORACOMULADO")
  let valGuarantor := parseMonetaryValue (oget debitSummary "VALORAVALISTA")
  JVal.obj
    [("identification", JVal.obj
        [("name", oget identNode "NOME"),
         ("document", oget identNode "DOCUMENTO"),
         ("birthDate", oget identNode "DATANASCIMENTO"),
         ("taxStatus", oget identNode "SITUACAORECEITA"),
         ("consumerStatus", oget statusNode "MENSAGEM")]),
     ("location", JVal.obj
        [("address", JVal.str (addressOf locNode)),
         ("city", oget locNode "CIDADE"),
         ("state", oget locNode "UNIDADEFEDERATIVA"),
         ("zipCode", oget locNode "CEP")]),
     ("financialSummary", JVal.obj
        [("totalDebtsQty", JVal.num (qtyPrincipal.add qtyGuarantor)),
         ("totalDebtsValue", JVal.num (valPrincipal.add valGuarantor)),
         ("protestsQty",
          JVal.num (jsParseInt (jsOr (oget protSummary "TOTAL")
            (JVal.str "0")))),
         ("protestsValue",
          JVal.num (parseMonetaryValue (oget protSummary "VALORACUMULADO"))),
         ("legalActionsQty",
          JVal.num (jsParseInt (jsOr (oget civSummary "QUANTIDADE")
            (JVal.str "0")))),
         ("bouncedChecksQty",
          JVal.num (jsParseInt (jsOr (oget ccfSummary "TOTALOCORRENCAS")
            (JVal.str "0"))))]),
     ("riskScore", JVal.arr riskScore),
     ("negativeDetails", JVal.obj
        [("debts", JVal.arr debts),
         ("protests", JVal.arr protests),
         ("civilActions", JVal.arr civilActions),
         ("bankruptcy", JVal.arr bankruptcy)]),
     ("corporateParticipation", JVal.arr corpPart)]

/-- Line 91's optional chain
`inputData?.body?.["SPCA-XML"]?.RESPOSTA?.ACERTA`. -/
def anchorChain (inputData : JVal) : JVal :=
  oget (oget (oget (oget inputData "body") "SPCA-XML") "RESPOSTA") "ACERTA"

/-- Source `cleanCreditData` (lines 89-208), pure form. -/
def buildPayload (creditReport : JVal) : JVal :=
  assemblePayload
    (propGet creditReport "RESUMO-OCORRENCIAS-DE-DEBITOS")
    (propGet creditReport "IDENTIFICACAO")
    (propGet creditReport "STATUS-CONSUMIDOR")
    (propGet creditReport "LOCALIZACAO")
    (propGet creditReport "RESUMO-TITULOS-PROTESTADOS")
    (propGet creditReport "RESUMO-DE-ACOES-CIVEIS")
    (propGet creditReport "RESUMO-DEVOLUCOES-INFORMADAS-PELO-CCF")
    (processDetailBlock
      (propGet creditReport "SCORE-CLASSIFICACAO-VARIOS-MODELOS") none
      scoreKeyMap)
    (processDetailBlock (propGet creditReport "DEBITOS") (some "DEBITO")
      debtsKeyMap)
    (processDetailBlock (propGet creditReport "TITULOS-PROTESTADOS")
      (some "TITULO-PROTESTADO") protestsKeyMap)
    (processDetailBlock (propGet creditReport "RELACAO-DE-ACOES-CIVEIS")
      (some "ACAO-CIVEL") civilActionsKeyMap)
    (processDetailBlock
      (propGet creditReport "RELACAO-FALENCIA-RECUPERACAO-JUDICIAL")
      (some "FALENCIA-RECUPERACAO-JUDICIAL") bankruptcyKeyMap)
    (processDetailBlock
      (propGet creditReport "PARTICIPACOES-DO-DOCUMENTO-CONSULTADO")
      (some "PARTICIPACAO-EM-EMPRESA") participationKeyMap)

def cleanCreditData (inputData : JVal) : JVal :=
  buildPayload (jsOr (anchorChain inputData) (JVal.obj []))

/-- Variant of `cleanCreditData` with throwing (`pget`) semantics for every plain
`creditReport.X` access of the source (the source reads some of these nodes
several times; the reads are pure, so one bound read per key is
equivalent). -/
def buildPayloadE (creditReport : JVal) : Except Unit JVal := do
  let debitSummary ← pget creditReport "RESUMO-OCORRENCIAS-DE-DEBITOS"
  let identNode ← pget creditReport "IDENTIFICACAO"
  let statusNode ← pget creditReport "STATUS-CONSUMIDOR"
  let locNode ← pget creditReport "LOCALIZACAO"
  let protSummary ← pget creditReport "RESUMO-TITULOS-PROTESTADOS"
  let civSummary ← pget creditReport "RESUMO-DE-ACOES-CIVEIS"
  let ccfSummary ← pget creditReport "RESUMO-DEVOLUCOES-INFORMADAS-PELO-CCF"
  let scoreBlock ← pget creditReport "SCORE-CLASSIFICACAO-VARIOS-MODELOS"
  let debitosBlock ← pget creditReport "DEBITOS"
  let titulosBlock ← pget creditReport "TITULOS-PROTESTADOS"
  let acoesBlock ← pget creditReport "RELACAO-DE-ACOES-CIVEIS"
  let falenciaBlock ← pget creditReport "RELACAO-FALENCIA-RECUPERACAO-JUDICIAL"
  let partBlock ← pget creditReport "PARTICIPACOES-DO-DOCUMENTO-CONSULTADO"
  let riskScore ← processDetailBlockE scoreBlock none scoreKeyMap
  let debts ← processDetailBlockE debitosBlock (some "DEBITO") debtsKeyMap
  let protests ← processDetailBlockE titulosBlock (some "TITULO-PROTESTADO")
    protestsKeyMap
  let civilActions ← processDetailBlockE acoesBlock (some "ACAO-CIVEL")
    civilActionsKeyMap
  let bankruptcy ← processDetailBlockE falenciaBlock
    (some "FALENCIA-RECUPERACAO-JUDICIAL") bankruptcyKeyMap
  let corpPart ← processDetailBlockE partBlock
    (some "PARTICIPACAO-EM-EMPRESA") participationKeyMap
  pure (assemblePayload debitSummary identNode statusNode locNode protSummary
    civSummary ccfSummary riskScore debts protests civilActions bankruptcy
    corpPart)

def cleanCreditDataE (inputData : JVal) : Except Unit JVal :=
  buildPayloadE (jsOr (anchorChain inputData) (JVal.obj []))

/-- Top-level key list of an object. -/
def jvalKeys : JVal → List String
  | JVal.obj fields => fields.map Prod.fst
  | _ => []

-- ### Sample documents and records used by the concrete theorems

/-- A raw debt record as delivered by the bureau (used across scenarios). -/
def sampleDebt1 : JVal := JVal.obj
  [("DATAOCORRENCIA", JVal.str "2023-01-01"), ("VALOR", JVal.str "1.000,00"),
   ("INFORMANTE", JVal.str "Bank X"), ("CONTRATO", JVal.str "-")]

/-- Its normalized form: `CONTRATO` is the placeholder `"-"` and is
dropped. -/
def sampleDebtOut1 : JVal := JVal.obj
  [("date", JVal.str "2023-01-01"), ("value", JVal.str "1.000,00"),
   ("creditor", JVal.str "Bank X")]

def sampleDebt2 : JVal := JVal.obj
  [("DATAOCORRENCIA", JVal.str "2024-02-02"), ("VALOR", JVal.str "2.500,00"),
   ("INFORMANTE", JVal.str "Bank Y")]

def sampleDebtOut2 : JVal := JVal.obj
  [("date", JVal.str "2024-02-02"), ("value", JVal.str "2.500,00"),
   ("creditor", JVal.str "Bank Y")]

/-- A bare single record carrying the indicator flag itself. -/
def sampleBareRecord : JVal := JVal.obj
  [("REGISTRO", JVal.str "S"), ("DATAOCORRENCIA", JVal.str "2023-01-01")]

/-- Wrap an `ACERTA` node in the full anchor path
`body → SPCA-XML → RESPOSTA → ACERTA`. -/
def mkRawInput (acerta : JVal) : JVal :=
  JVal.obj [("body", JVal.obj [("SPCA-XML", JVal.obj
    [("RESPOSTA", JVal.obj [("ACERTA", acerta)])])])]

/-- Summary with quantities "3"/"1" and values "100,00"/"50,50". -/
def inputSummary : JVal := mkRawInput (JVal.obj
  [("RESUMO-OCORRENCIAS-DE-DEBITOS", JVal.obj
    [("TOTALDEVEDOR", JVal.str "3"), ("TOTALAVALISTA", JVal.str "1"),
     ("VALORACOMULADO", JVal.str "100,00"),
     ("VALORAVALISTA", JVal.str "50,50")])])

/-- Protest summary whose `TOTAL` is a present, non-numeric string. -/
def inputProtestsBad : JVal := mkRawInput (JVal.obj
  [("RESUMO-TITULOS-PROTESTADOS", JVal.obj [("TOTAL", JVal.str "abc")])])

/-- Debit summary whose `TOTALDEVEDOR` is a non-numeric string. -/
def inputDebtorBad : JVal := mkRawInput (JVal.obj
  [("RESUMO-OCORRENCIAS-DE-DEBITOS", JVal.obj
    [("TOTALDEVEDOR", JVal.str "abc")])])

/-- Civil-action summary whose `QUANTIDADE` is a non-numeric string. -/
def inputCivilBad : JVal := mkRawInput (JVal.obj
  [("RESUMO-DE-ACOES-CIVEIS", JVal.obj [("QUANTIDADE", JVal.str "xyz")])])

/-- Debit summary with an unparsable principal value and a parsable
guarantor value. -/
def inputDebitValueBad : JVal := mkRawInput (JVal.obj
  [("RESUMO-OCORRENCIAS-DE-DEBITOS", JVal.obj
    [("VALORACOMULADO", JVal.str "abc"),
     ("VALORAVALISTA", JVal.str "50,50")])])

/-- Protest summary with an unparsable accumulated value. -/
def inputProtestsValueBad : JVal := mkRawInput (JVal.obj
  [("RESUMO-TITULOS-PROTESTADOS", JVal.obj
    [("VALORACUMULADO", JVal.str "abc")])])

/-- The end-to-end `DEBITOS` document of the spec's scenario. -/
def inputDebts : JVal := mkRawInput (JVal.obj
  [("DEBITOS", JVal.obj [("REGISTRO", JVal.str "S"),
    ("DEBITO", JVal.arr [sampleDebt1])])])

/-- Node `LOCALIZACAO` present but all three address parts absent. -/
def inputEmptyLoc : JVal := mkRawInput (JVal.obj
  [("LOCALIZACAO", JVal.obj [("CIDADE", JVal.str "Sao Paulo")])])

/-- Address parts with the street name absent. -/
def inputPartialAddress : JVal := mkRawInput (JVal.obj
  [("LOCALIZACAO", JVal.obj [("TIPOLOGRADOURO", JVal.str "Rua"),
    ("NUMEROLOGRADOURO", JVal.str "5")])])

/-- Scanner for two consecutive spaces. -/
def hasDoubleSpace : List Char → Bool
  | ' ' :: ' ' :: _ => true
  | _ :: rest => hasDoubleSpace rest
  | [] => false

-- ### Totality of the throwing embedding

theorem except_ok_bind {A B : Type} (a : A) (f : A → Except Unit B) :
    (Except.ok a : Except Unit A) >>= f = f a := rfl

theorem except_pure_eq {A : Type} (a : A) :
    (pure a : Except Unit A) = Except.ok a := rfl

theorem truthy_ne_null {v : JVal} (h : truthy v = true) : v ≠ JVal.null := by
  rintro rfl; simp [truthy] at h

theorem truthy_ne_undef {v : JVal} (h : truthy v = true) : v ≠ JVal.undef := by
  rintro rfl; simp [truthy] at h

/-- A plain access on a value that is not `null`/`undefined` returns
normally. -/
theorem pget_eq_ok {v : JVal} (h1 : v ≠ JVal.null) (h2 : v ≠ JVal.undef)
    (k : String) : pget v k = Except.ok (propGet v k) := by
  cases v
  case null => exact absurd rfl h1
  case undef => exact absurd rfl h2
  all_goals rfl

theorem jsOr_obj_ne_null (v : JVal) (fs : List (String × JVal)) :
    jsOr v (JVal.obj fs) ≠ JVal.null := by
  unfold jsOr
  by_cases h : truthy v = true
  · simpa [h] using truthy_ne_null h
  · simp [h]

theorem jsOr_obj_ne_undef (v : JVal) (fs : List (String × JVal)) :
    jsOr v (JVal.obj fs) ≠ JVal.undef := by
  unfold jsOr
  by_cases h : truthy v = true
  · simpa [h] using truthy_ne_undef h
  · simp [h]

/-- The guarded accesses inside `processDetailBlock` can never throw: the
throwing embedding agrees with the pure one on every block. -/
theorem processDetailBlockE_eq (b : JVal) (dk : Option String)
    (km : List (String × String)) :
    processDetailBlockE b dk km = Except.ok (processDetailBlock b dk km) := by
  cases b
  case undef => cases dk <;> rfl
  case null => cases dk <;> rfl
  case arr xs => cases dk <;> rfl
  case bool bb => cases bb <;> cases dk <;> rfl
  case num v =>
    cases v with
    | nan => cases dk <;> rfl
    | inf => cases dk <;> rfl
    | ninf => cases dk <;> rfl
    | val d =>
        cases h : (d.n == 0) <;> cases dk <;>
          simp [processDetailBlockE, processDetailBlock, truthy, JsNum.truthy,
            h, pget, strictEqStr, propGet, isObjType, except_ok_bind,
            except_pure_eq]
  case str s =>
    cases h : (s == "") <;> cases dk <;>
      simp [processDetailBlockE, processDetailBlock, truthy, h, pget,
        strictEqStr, propGet, isObjType, except_ok_bind, except_pure_eq]
  case obj fs =>
    have hg : truthy (JVal.obj fs) = true := rfl
    cases dk with
    | none =>
        cases hS : strictEqStr (objLookup fs "REGISTRO") "S" <;>
          simp [processDetailBlockE, processDetailBlock, hg, pget,
            propGet, isObjType, hS, except_ok_bind, except_pure_eq]
    | some k =>
        cases hS : strictEqStr (objLookup fs "REGISTRO") "S" <;>
          cases hT : truthy (objLookup fs k) <;>
            simp [processDetailBlockE, processDetailBlock, hg, pget,
              propGet, isObjType, hS, hT, except_ok_bind, except_pure_eq]

/-- Once the credit report is known not to be `null`/`undefined`, the whole
assembly phase is throw-free. -/
theorem buildPayloadE_eq (w : JVal) (h1 : w ≠ JVal.null)
    (h2 : w ≠ JVal.undef) :
    buildPayloadE w = Except.ok (buildPayload w) := by
  simp [buildPayloadE, buildPayload, pget_eq_ok h1 h2, processDetailBlockE_eq,
    except_ok_bind, except_pure_eq]

/-- The cleaner never throws: the fallback to an empty object makes the credit
report non-nullish, and every other access is optional-chained or guarded. -/
theorem cleanCreditData_total (x : JVal) :
    cleanCreditDataE x = Except.ok (cleanCreditData x) :=
  buildPayloadE_eq _ (jsOr_obj_ne_null _ _) (jsOr_obj_ne_undef _ _)

-- ### Record invariants (Block Unifier output)

theorem objSet_mem : ∀ (acc : List (String × JVal)) (k : String) (v : JVal)
    (p : String × JVal), p ∈ objSet acc k v → p = (k, v) ∨ p ∈ acc := by
  intro acc k v
  induction acc with
  | nil => intro p hp; left; simpa [objSet] using hp
  | cons q rest ih =>
      intro p hp
      rcases q with ⟨k1, v1⟩
      cases hbk : (k1 == k) with
      | true =>
          rw [objSet, if_pos hbk] at hp
          rcases List.mem_cons.mp hp with rfl | h
          · left
            rw [eq_of_beq hbk]
          · right; exact List.mem_cons_of_mem _ h
      | false =>
          rw [objSet, if_neg (by simp [hbk])] at hp
          rcases List.mem_cons.mp hp with rfl | h
          · right; exact List.mem_cons_self _ _
          · rcases ih p h with h1 | h2
            · left; exact h1
            · right; exact List.mem_cons_of_mem _ h2

theorem buildRecord_mem : ∀ (km : List (String × String)) (item : JVal)
    (acc : List (String × JVal)) (p : String × JVal),
    p ∈ buildRecord km item acc →
    (p.1 ∈ km.map Prod.snd ∧ truthy p.2 = true ∧
      strictEqStr p.2 "-" = false) ∨ p ∈ acc := by
  intro km
  induction km with
  | nil => intro item acc p hp; right; simpa [buildRecord] using hp
  | cons kk rest ih =>
      intro item acc p hp
      rcases kk with ⟨oldKey, newKey⟩
      rw [buildRecord] at hp
      set v := propGet item oldKey with hv
      cases hc : (truthy v && !(strictEqStr v "-")) with
      | true =>
          rw [if_pos hc] at hp
          simp only [Bool.and_eq_true, Bool.not_eq_true'] at hc
          rcases ih item _ p hp with ⟨h1, h2, h3⟩ | h
          · exact Or.inl ⟨List.mem_cons_of_mem _ h1, h2, h3⟩
          · rcases objSet_mem acc newKey v p h with rfl | hacc
            · exact Or.inl ⟨List.mem_cons_self _ _, hc.1, hc.2⟩
            · exact Or.inr hacc
      | false =>
          rw [if_neg (by simp [hc])] at hp
          rcases ih item acc p hp with ⟨h1, h2, h3⟩ | h
          · exact Or.inl ⟨List.mem_cons_of_mem _ h1, h2, h3⟩
          · exact Or.inr h

theorem finishBlock_mem : ∀ (rd : JVal) (km : List (String × String))
    (r : JVal), r ∈ finishBlock rd km →
    ∃ fields, r = JVal.obj fields ∧ fields ≠ [] ∧
      ∀ p ∈ fields, p.1 ∈ km.map Prod.snd ∧ truthy p.2 = true ∧
        strictEqStr p.2 "-" = false := by
  intro rd km r hr
  unfold finishBlock at hr
  rcases List.mem_filter.mp hr with ⟨hmem, hkeep⟩
  rcases List.mem_map.mp hmem with ⟨item, hitem, hmi⟩
  subst hmi
  cases item
  case undef => simp [mapItem, keepItem] at hkeep
  case null => simp [mapItem, keepItem] at hkeep
  case bool bb => simp [mapItem, keepItem] at hkeep
  case num v => simp [mapItem, keepItem] at hkeep
  case str ss => simp [mapItem, keepItem] at hkeep
  case arr xs =>
      refine ⟨buildRecord km (JVal.arr xs) [], rfl, ?_, ?_⟩
      · have hl : 0 < (buildRecord km (JVal.arr xs) []).length := by
          simpa [mapItem, keepItem] using hkeep
        exact List.ne_nil_of_length_pos hl
      · intro p hp
        rcases buildRecord_mem km (JVal.arr xs) [] p hp with h | h
        · exact h
        · cases h
  case obj fs =>
      refine ⟨buildRecord km (JVal.obj fs) [], rfl, ?_, ?_⟩
      · have hl : 0 < (buildRecord km (JVal.obj fs) []).length := by
          simpa [mapItem, keepItem] using hkeep
        exact List.ne_nil_of_length_pos hl
      · intro p hp
        rcases buildRecord_mem km (JVal.obj fs) [] p hp with h | h
        · exact h
        · cases h

/-- Every record emitted by `processDetailBlock` comes out of the
map-and-filter phase of some raw block. -/
theorem processDetailBlock_mem : ∀ (b : JVal) (dk : Option String)
    (km : List (String × String)) (r : JVal),
    r ∈ processDetailBlock b dk km → ∃ rd, r ∈ finishBlock rd km := by
  intro b dk km r hr
  rw [processDetailBlock.eq_def] at hr
  split at hr
  · cases hr
  · split at hr
    · exact ⟨_, hr⟩
    · split at hr
      · exact ⟨_, hr⟩
      · split at hr
        · exact ⟨_, hr⟩
        · cases hr
    · split at hr
      · exact ⟨_, hr⟩
      · cases hr

-- ### Address synthesis: trimming only touches the ends

theorem mem_dropWhile_of_mem {p : Char → Bool} :
    ∀ {l : List Char} {c : Char}, c ∈ l → p c = false →
      c ∈ l.dropWhile p := by
  intro l
  induction l with
  | nil => intro c h _; cases h
  | cons a rest ih =>
      intro c hc hpc
      cases hpa : p a
      · simpa [List.dropWhile_cons, hpa] using hc
      · rcases List.mem_cons.mp hc with rfl | h
        · rw [hpc] at hpa; cases hpa
        · simpa [List.dropWhile_cons, hpa] using ih h hpc

/-- A list containing a non-whitespace character does not trim to nil. -/
theorem trimChars_ne_nil {l : List Char} {c : Char} (hc : c ∈ l)
    (hw : isJsWs c = false) : trimChars l ≠ [] := by
  unfold trimChars
  have h1 := mem_dropWhile_of_mem hc hw
  have h2 : c ∈ (l.dropWhile isJsWs).reverse := List.mem_reverse.mpr h1
  have h3 := mem_dropWhile_of_mem h2 hw
  have h4 : c ∈ ((l.dropWhile isJsWs).reverse.dropWhile isJsWs).reverse :=
    List.mem_reverse.mpr h3
  exact List.ne_nil_of_mem h4

theorem string_data_append (a b : String) : (a ++ b).data = a.data ++ b.data :=
  rfl

/-- The synthesized address always keeps its comma: trimming removes only
leading/trailing whitespace, and `,` is not whitespace. -/
theorem jsTrim_comma_ne_empty (a b c : String) :
    jsTrim (a ++ " " ++ b ++ ", " ++ c) ≠ "" := by
  intro h
  have hd : trimChars ((a ++ " " ++ b ++ ", " ++ c).data) = [] :=
    congrArg String.data h
  have hmem : Char.ofNat 44 ∈ (a ++ " " ++ b ++ ", " ++ c).data := by
    simp [string_data_append]
  exact trimChars_ne_nil hmem (by decide) hd

/-- The address slot of the payload, for any input. -/
theorem address_shape (x : JVal) :
    propGet (propGet (cleanCreditData x) "location") "address" =
      JVal.str (addressOf
        (propGet (jsOr (anchorChain x) (JVal.obj [])) "LOCALIZACAO")) := rfl

theorem addressOf_ne_empty (locNode : JVal) : addressOf locNode ≠ "" := by
  unfold addressOf
  exact jsTrim_comma_ne_empty _ _ _

-- ### Claim theorems

/-- C1: for every JSON-compatible input — including the empty object, a
null root, non-object roots, and documents truncated at any depth along the
anchor path `body → SPCA-XML → RESPOSTA → ACERTA` — `cleanCreditData`
returns normally (the throwing embedding yields `ok`, never an exception)
and the result carries the fixed `AiContextPayload` field set
(identification, location, financialSummary, riskScore, negativeDetails,
corporateParticipation). -/
theorem C1_total_and_fixed_shape (x : JVal) :
    cleanCreditDataE x = Except.ok (cleanCreditData x) ∧
    jvalKeys (cleanCreditData x) =
      ["identification", "location", "financialSummary", "riskScore",
       "negativeDetails", "corporateParticipation"] :=
  ⟨cleanCreditData_total x, rfl⟩

/-- C2: shape precedence of `processDetailBlock`: an absent/falsy block
yields the empty list for every `dataKey` and rename map; a two-record
array yields the two mapped records; a wrapper with `REGISTRO: "S"` and the
matching `dataKey` yields the unwrapped mapped records; a bare object with
`REGISTRO: "S"` yields one mapped record; `REGISTRO: "N"` yields the empty
list. -/
theorem C2_shape_precedence :
    (∀ (dk : Option String) (km : List (String × String)),
      processDetailBlock JVal.undef dk km = [] ∧
      processDetailBlock JVal.null dk km = [] ∧
      processDetailBlock (JVal.bool false) dk km = [] ∧
      processDetailBlock (JVal.str "") dk km = [] ∧
      processDetailBlock (JVal.num (JsNum.val ⟨0, 0⟩)) dk km = [] ∧
      processDetailBlock (JVal.num JsNum.nan) dk km = []) ∧
    processDetailBlock (JVal.arr [sampleDebt1, sampleDebt2]) (some "DEBITO")
      debtsKeyMap = [sampleDebtOut1, sampleDebtOut2] ∧
    processDetailBlock (JVal.obj [("REGISTRO", JVal.str "S"),
      ("DEBITO", JVal.arr [sampleDebt1, sampleDebt2])]) (some "DEBITO")
      debtsKeyMap = [sampleDebtOut1, sampleDebtOut2] ∧
    processDetailBlock sampleBareRecord (some "DEBITO") debtsKeyMap =
      [JVal.obj [("date", JVal.str "2023-01-01")]] ∧
    processDetailBlock (JVal.obj [("REGISTRO", JVal.str "N"),
      ("DEBITO", JVal.arr [sampleDebt1])]) (some "DEBITO") debtsKeyMap =
      [] :=
  ⟨fun _ _ => ⟨rfl, rfl, rfl, rfl, rfl, rfl⟩, rfl, rfl, rfl, rfl⟩

/-- C3: every record emitted by `processDetailBlock` is a non-empty object
whose keys are rename-map outputs and whose values are truthy and not the
placeholder "-" — so placeholder fields are absent, non-object elements are
dropped, and zero-key records never appear. -/
theorem C3_record_fields_filtered (b : JVal) (dk : Option String)
    (km : List (String × String)) (r : JVal)
    (hr : r ∈ processDetailBlock b dk km) :
    ∃ fields, r = JVal.obj fields ∧ fields ≠ [] ∧
      ∀ p ∈ fields, p.1 ∈ km.map Prod.snd ∧ truthy p.2 = true ∧
        strictEqStr p.2 "-" = false := by
  rcases processDetailBlock_mem b dk km r hr with ⟨rd, hrd⟩
  exact finishBlock_mem rd km r hrd

/-- C3 witness: the invariant instantiated at a concrete one-record
block. -/
theorem C3_record_fields_filtered_witness :
    ∃ fields, sampleDebtOut1 = JVal.obj fields ∧ fields ≠ [] ∧
      ∀ p ∈ fields, p.1 ∈ debtsKeyMap.map Prod.snd ∧ truthy p.2 = true ∧
        strictEqStr p.2 "-" = false :=
  C3_record_fields_filtered (JVal.arr [sampleDebt1]) (some "DEBITO")
    debtsKeyMap sampleDebtOut1 (List.Mem.head [])

/-- C4 counterexample: contrary to the claim, `parseMonetaryValue("")` is
`NaN` (the `parseFloat` of the empty string), not `0`. -/
theorem C4_empty_string_gives_nan :
    parseMonetaryValue (JVal.str "") = JsNum.nan ∧
    JsNum.nan ≠ JsNum.val ⟨0, 0⟩ :=
  ⟨rfl, by decide⟩

/-- C4 (amended): `parseMonetaryValue` strips all dots, turns the first
comma into a dot and parses the result as a float — "1.234.567,89" gives
1234567.89 (the decimal 123456789 / 10 ^ 2); every non-string input
(undefined, null, booleans, numbers, arrays, objects) gives 0; the empty
string parses to `NaN`. -/
theorem C4_monetary_parsing (v : JVal) (hv : ∀ s, v ≠ JVal.str s) :
    parseMonetaryValue (JVal.str "1.234.567,89") =
      JsNum.val ⟨123456789, 2⟩ ∧
    parseMonetaryValue JVal.undef = JsNum.val ⟨0, 0⟩ ∧
    parseMonetaryValue JVal.null = JsNum.val ⟨0, 0⟩ ∧
    parseMonetaryValue (JVal.str "") = JsNum.nan ∧
    parseMonetaryValue v = JsNum.val ⟨0, 0⟩ := by
  refine ⟨by decide, rfl, rfl, rfl, ?_⟩
  cases v
  case str s => exact absurd rfl (hv s)
  all_goals rfl

/-- C4 witness: the amended theorem at the non-string input `true`. -/
theorem C4_monetary_parsing_witness :
    parseMonetaryValue (JVal.str "1.234.567,89") =
      JsNum.val ⟨123456789, 2⟩ ∧
    parseMonetaryValue JVal.undef = JsNum.val ⟨0, 0⟩ ∧
    parseMonetaryValue JVal.null = JsNum.val ⟨0, 0⟩ ∧
    parseMonetaryValue (JVal.str "") = JsNum.nan ∧
    parseMonetaryValue (JVal.bool true) = JsNum.val ⟨0, 0⟩ :=
  C4_monetary_parsing (JVal.bool true) (fun _ h => JVal.noConfusion h)

/-- C5: principal and guarantor exposure are aggregated — quantities "3"
and "1" give `totalDebtsQty` 4, and values "100,00" and "50,50" give
`totalDebtsValue` 150.5 (the decimal 1505 / 10). -/
theorem C5_summary_aggregation :
    propGet (propGet (cleanCreditData inputSummary) "financialSummary")
      "totalDebtsQty" = JVal.num (JsNum.val ⟨4, 0⟩) ∧
    propGet (propGet (cleanCreditData inputSummary) "financialSummary")
      "totalDebtsValue" = JVal.num (JsNum.val ⟨1505, 1⟩) := ⟨rfl, rfl⟩

/-- C6 counterexample: a present non-numeric `TOTAL` under
`RESUMO-TITULOS-PROTESTADOS` makes `protestsQty` equal to `NaN`, not 0:
the truthy string "abc" bypasses the `|| "0"` default and `parseInt`'s
`NaN` has no further guard. -/
theorem C6_nonnumeric_counter_not_zero :
    propGet (propGet (cleanCreditData inputProtestsBad) "financialSummary")
      "protestsQty" = JVal.num JsNum.nan ∧
    JVal.num JsNum.nan ≠ JVal.num (JsNum.val ⟨0, 0⟩) :=
  ⟨rfl, by intro h; injection h with h2; exact JsNum.noConfusion h2⟩

/-- C6 (amended): the two `totalDebtsQty` components default to 0 both
when absent and when non-numeric (the `|| 0` guard swallows `NaN`), while
`protestsQty`, `legalActionsQty` and `bouncedChecksQty` default to 0 only
when the source field is absent/falsy (their `|| "0"` default applies
before parsing); a present non-numeric string there yields `NaN`.  No
fault is raised in either regime. -/
theorem C6_counter_default_regimes :
    propGet (propGet (cleanCreditData inputDebtorBad) "financialSummary")
      "totalDebtsQty" = JVal.num (JsNum.val ⟨0, 0⟩) ∧
    propGet (propGet (cleanCreditData (JVal.obj [])) "financialSummary")
      "totalDebtsQty" = JVal.num (JsNum.val ⟨0, 0⟩) ∧
    propGet (propGet (cleanCreditData (JVal.obj [])) "financialSummary")
      "protestsQty" = JVal.num (JsNum.val ⟨0, 0⟩) ∧
    propGet (propGet (cleanCreditData (JVal.obj [])) "financialSummary")
      "legalActionsQty" = JVal.num (JsNum.val ⟨0, 0⟩) ∧
    propGet (propGet (cleanCreditData (JVal.obj [])) "financialSummary")
      "bouncedChecksQty" = JVal.num (JsNum.val ⟨0, 0⟩) ∧
    propGet (propGet (cleanCreditData inputProtestsBad) "financialSummary")
      "protestsQty" = JVal.num JsNum.nan ∧
    propGet (propGet (cleanCreditData inputCivilBad) "financialSummary")
      "legalActionsQty" = JVal.num JsNum.nan ∧
    cleanCreditDataE inputProtestsBad =
      Except.ok (cleanCreditData inputProtestsBad) :=
  ⟨rfl, rfl, rfl, rfl, rfl, rfl, rfl, rfl⟩

/-- C7 counterexample: with `VALORACOMULADO = "abc"` and
`VALORAVALISTA = "50,50"`, `totalDebtsValue` is `NaN` — not the parsable
component's value 50.5 (the decimal 505 / 10) as the claim states. -/
theorem C7_nan_not_other_component :
    propGet (propGet (cleanCreditData inputDebitValueBad)
      "financialSummary") "totalDebtsValue" = JVal.num JsNum.nan ∧
    JVal.num JsNum.nan ≠ JVal.num (JsNum.val ⟨505, 1⟩) :=
  ⟨rfl, by intro h; injection h with h2; exact JsNum.noConfusion h2⟩

/-- C7 (amended): an unparsable monetary summary string is resolved
silently — no fault is signaled — but it parses to `NaN`, and `NaN`
propagates through the aggregation sum, so `totalDebtsValue` becomes `NaN`
rather than the other component's parsed value (a lone unparsable
`VALORACUMULADO` likewise makes `protestsValue` `NaN`). -/
theorem C7_silent_nan_propagation :
    parseMonetaryValue (JVal.str "abc") = JsNum.nan ∧
    propGet (propGet (cleanCreditData inputDebitValueBad)
      "financialSummary") "totalDebtsValue" = JVal.num JsNum.nan ∧
    propGet (propGet (cleanCreditData inputProtestsValueBad)
      "financialSummary") "protestsValue" = JVal.num JsNum.nan ∧
    cleanCreditDataE inputDebitValueBad =
      Except.ok (cleanCreditData inputDebitValueBad) :=
  ⟨rfl, rfl, rfl, rfl⟩

/-- C8: the end-to-end `DEBITOS` scenario — the record with the placeholder
`CONTRATO = "-"` maps to exactly date / value / creditor, the placeholder
is omitted, and `value` is copied as the raw locale string "1.000,00"
rather than parsed to a number. -/
theorem C8_end_to_end_debts :
    propGet (propGet (cleanCreditData inputDebts) "negativeDetails")
      "debts" = JVal.arr [sampleDebtOut1] := rfl

/-- C9: feeding a payload back through the pipeline never throws and yields
the fully degraded payload: `cleanCreditData (cleanCreditData x)` equals
`cleanCreditData {}` for every input `x`. -/
theorem C9_renormalization_degrades (x : JVal) :
    cleanCreditData (cleanCreditData x) = cleanCreditData (JVal.obj []) ∧
    cleanCreditDataE (cleanCreditData x) =
      Except.ok (cleanCreditData (JVal.obj [])) := ⟨rfl, rfl⟩

/-- C10 counterexample: with only the street name absent the address is
"Rua , 5" — an internal space-comma sequence survives, but no internal
double space arises from the template, contrary to the claim's
parenthetical about double spaces. -/
theorem C10_no_double_space :
    propGet (propGet (cleanCreditData inputPartialAddress) "location")
      "address" = JVal.str "Rua , 5" ∧
    hasDoubleSpace ("Rua , 5").data = false := ⟨rfl, by decide⟩

/-- C10 (amended): when `LOCALIZACAO` is absent, or present with all three
address parts absent, `location.address` is the single-character string
","; only leading and trailing whitespace of the full concatenation is
trimmed, so the internal comma separator (with its surviving interior
space, as in "Rua , 5") remains, and the address is never the empty
string. -/
theorem C10_address_separator :
    propGet (propGet (cleanCreditData (JVal.obj [])) "location")
      "address" = JVal.str "," ∧
    propGet (propGet (cleanCreditData inputEmptyLoc) "location")
      "address" = JVal.str "," ∧
    propGet (propGet (cleanCreditData inputPartialAddress) "location")
      "address" = JVal.str "Rua , 5" ∧
    (∀ x : JVal, ∃ s : String,
      propGet (propGet (cleanCreditData x) "location") "address" =
        JVal.str s ∧ s ≠ "") :=
  ⟨rfl, rfl, rfl, fun x =>
    ⟨addressOf (propGet (jsOr (anchorChain x) (JVal.obj [])) "LOCALIZACAO"),
      address_shape x, addressOf_ne_empty _⟩⟩

end CreditClean
